import Mathlib

set_option maxHeartbeats 1000000
set_option maxRecDepth 100000
set_option synthInstance.maxHeartbeats 1000000

/-!
Verification of the KTCD_AUG `Lab_generate` pipeline: the lab data model
(`models/lab_models.py`), the template generator (`generate_all_labs.py`),
the prompted generator (`services/lab_generation_service.py`) and the file
utilities (`utils/file_utils.py`), embedded shallowly: Python strings are
lists of characters, Python dicts are association lists, the external LLM
call and the langchain response parser are function parameters, and the
pydantic validation performed at model construction is expressed by
explicit validity predicates and an explicit parser.
-/

/-- Python strings, modelled as lists of characters. -/
abbrev Str := List Char

/-- Python `str.lower()` (ASCII range, which covers every comparison made by
the code: all table keywords are ASCII). -/
def pyLower (s : Str) : Str := s.map Char.toLower

/-- Python's substring test `needle in hay`. -/
def strIsInfixOf (needle : Str) : Str → Bool
  | [] => needle.isEmpty
  | c :: t => needle.isPrefixOf (c :: t) || strIsInfixOf needle t

/-- The three difficulty literals of `lab_models.py` (`Literal['easy', 'medium', 'hard']`). -/
inductive Difficulty where
  | easy
  | medium
  | hard
  deriving DecidableEq

/-- The three exercise-type literals (`Literal['guided', 'challenge', 'exploration']`). -/
inductive ExerciseType where
  | guided
  | challenge
  | exploration
  deriving DecidableEq

/-- The three scaffolding literals (`Literal['low', 'medium', 'high']`). -/
inductive Scaffolding where
  | low
  | medium
  | high
  deriving DecidableEq

/-- JSON trees, for the Python dict/JSON values that flow through the code
(`model_dump`, the parsed service response, exercise `test_cases` entries).
Objects are association lists, as Python dicts preserve insertion order. -/
inductive Json where
  | null
  | str (s : Str)
  | int (n : Int)
  | bool (b : Bool)
  | arr (elems : List Json)
  | obj (fields : List (Str × Json))

/-- `lab_models.LabExercise`.  The pydantic `Literal` on `type` is the
inductive `ExerciseType`; the `ge=0, le=5` bound on `hints` is expressed by
`LabExercise.validB` (pydantic enforces it at construction). -/
structure LabExercise where
  type : ExerciseType
  hints : Int
  description : Option Str
  starter_code : Option Str
  solution : Option Str
  test_cases : Option (List (List (Str × Json)))

/-- `lab_models.LabSection`. -/
structure LabSection where
  concept : Str
  title : Str
  difficulty : Difficulty
  scaffolding_level : Scaffolding
  exercises : List LabExercise
  learning_objectives : Option (List Str)
  background : Option Str

/-- `lab_models.PersonalizedLab`. -/
structure PersonalizedLab where
  title : Str
  topic : Str
  difficulty : Difficulty
  estimated_time : Int
  sections : List LabSection
  prerequisites : Option (List Str)
  technologies : Option (List Str)
  personalization_context : Option Str

/-- `lab_models.LabGenerationMetadata`. -/
structure LabGenerationMetadata where
  concept_name : Str
  concept_definition : Str
  source_topic : Str
  model_used : Option Str
  personalization_applied : Bool

/-- `lab_models.CompleteLabResult`. -/
structure CompleteLabResult where
  lab : PersonalizedLab
  metadata : LabGenerationMetadata
  success : Bool
  error : Option Str

/-- The pydantic field constraint of `LabExercise`: `hints` in [0, 5]. -/
def LabExercise.validB (e : LabExercise) : Bool :=
  decide (0 ≤ e.hints ∧ e.hints ≤ 5)

/-- The pydantic field constraints of `LabSection`: `exercises` non-empty
(`min_length=1`) and every exercise valid. -/
def LabSection.validB (s : LabSection) : Bool :=
  !s.exercises.isEmpty && s.exercises.all LabExercise.validB

/-- The pydantic field constraints of `PersonalizedLab`: `estimated_time` in
[15, 180], `sections` non-empty, every section valid. -/
def PersonalizedLab.validB (l : PersonalizedLab) : Bool :=
  decide (15 ≤ l.estimated_time ∧ l.estimated_time ≤ 180) &&
  !l.sections.isEmpty && l.sections.all LabSection.validB

/-- The §3 section invariants: the pydantic constraints plus a non-empty
`concept` name. -/
def LabSection.specValidB (s : LabSection) : Bool :=
  !s.concept.isEmpty && s.validB

/-- The full §3 lab invariants: the pydantic constraints with every section
also carrying a non-empty concept name. -/
def PersonalizedLab.specValidB (l : PersonalizedLab) : Bool :=
  decide (15 ≤ l.estimated_time ∧ l.estimated_time ≤ 180) &&
  !l.sections.isEmpty && l.sections.all LabSection.specValidB

/-- Python `str.title()` (ASCII range): a cased character becomes uppercase
when the previous character is uncased, lowercase otherwise. -/
def pyTitleGo : Bool → Str → Str
  | _, [] => []
  | prevCased, c :: rest =>
    (if c.isAlpha then (if prevCased then c.toLower else c.toUpper) else c) ::
      pyTitleGo c.isAlpha rest

/-- Python `str.title()`. -/
def pyTitle (s : Str) : Str := pyTitleGo false s

namespace TemplateLabGenerator

/-- `TemplateLabGenerator.__init__`: the `difficulty_map` dict, in its
insertion (= iteration) order.  The dict values are the difficulty literals. -/
def difficulty_map : List (Str × Difficulty) :=
  [("database".toList, .medium),
   ("algorithm".toList, .hard),
   ("system".toList, .hard),
   ("data".toList, .easy),
   ("processing".toList, .medium),
   ("analysis".toList, .medium),
   ("storage".toList, .easy),
   ("framework".toList, .medium),
   ("model".toList, .hard),
   ("technique".toList, .medium)]

/-- The `for keyword, difficulty in self.difficulty_map.items()` loop of
`_determine_difficulty`, with its early `return` on the first match. -/
def lookupDifficulty : List (Str × Difficulty) → Str → Str → Option Difficulty
  | [], _, _ => none
  | (keyword, difficulty) :: rest, concept_lower, definition_lower =>
    if strIsInfixOf keyword concept_lower || strIsInfixOf keyword definition_lower then
      some difficulty
    else
      lookupDifficulty rest concept_lower definition_lower

/-- `TemplateLabGenerator._determine_difficulty`. -/
def _determine_difficulty (concept_name definition : Str) : Difficulty :=
  let concept_lower := pyLower concept_name
  let definition_lower := pyLower definition
  match lookupDifficulty difficulty_map concept_lower definition_lower with
  | some difficulty => difficulty
  | none =>
    if definition.length > 200 then .hard
    else if definition.length > 100 then .medium
    else .easy

/-- The `base_time` dict of `_estimate_time`.  Its `.get(difficulty, 45)`
default is unreachable here because `difficulty` ranges over the three
literals. -/
def base_time : Difficulty → Int
  | .easy => 30
  | .medium => 45
  | .hard => 60

/-- `TemplateLabGenerator._estimate_time`. -/
def _estimate_time (difficulty : Difficulty) (num_sections : Int) : Int :=
  base_time difficulty + (num_sections - 1) * 15

/-- `TemplateLabGenerator._create_exercises`.  The `personalization_context`
parameter is unused in the source as well. -/
def _create_exercises (concept_name : Str) (difficulty : Difficulty)
    (_personalization_context : Option Str) : List LabExercise :=
  let guidedExercise : LabExercise :=
    { type := .guided,
      hints := if difficulty = .easy then 3 else 2,
      description := some ("Implement a basic example demonstrating ".toList ++ concept_name),
      starter_code := some ("# TODO: Implement ".toList ++ concept_name ++
        "\n# Your code here\n".toList),
      solution := some ("# Solution for ".toList ++ concept_name ++
        "\n# Implementation details\n".toList),
      test_cases := some [[("input".toList, Json.str "test_input".toList),
                           ("expected".toList, Json.str "expected_output".toList)]] }
  if difficulty = .medium ∨ difficulty = .hard then
    [guidedExercise,
     { type := .challenge,
       hints := 1,
       description := some ("Apply ".toList ++ concept_name ++
         " to solve a real-world problem".toList),
       starter_code := some ("# Challenge: Advanced ".toList ++ concept_name ++ "\n".toList),
       solution := some "# Advanced solution\n".toList,
       test_cases := some [] }]
  else
    [guidedExercise]

/-- The body of the `try` block of `TemplateLabGenerator.generate_lab`
(steps 1-6).  Every operation in the body is total on string inputs, which
is why the body always produces `.ok`. -/
def generate_lab_try (concept_name concept_definition topic : Str)
    (personalization_context : Option Str) : Except Str CompleteLabResult :=
  let difficulty := _determine_difficulty concept_name concept_definition
  let title :=
    match personalization_context with
    | some pc =>
      if pc.isEmpty then "Hands-On Lab: ".toList ++ concept_name
      else "Hands-On Lab: ".toList ++ concept_name ++ " in ".toList ++ pyTitle pc
    | none => "Hands-On Lab: ".toList ++ concept_name
  let exercises := _create_exercises concept_name difficulty personalization_context
  let sec : LabSection :=
    { concept := concept_name,
      title := "Exploring ".toList ++ concept_name,
      difficulty,
      scaffolding_level := .medium,
      exercises,
      learning_objectives := some
        ["Understand the fundamentals of ".toList ++ concept_name,
         "Apply ".toList ++ concept_name ++ " in practical scenarios".toList,
         "Implement solutions using ".toList ++ concept_name],
      background := some concept_definition }
  let lab : PersonalizedLab :=
    { title,
      topic,
      difficulty,
      estimated_time := _estimate_time difficulty 1,
      sections := [sec],
      prerequisites := some ["Basic programming knowledge".toList,
                             "Understanding of databases".toList],
      technologies := some ["Python".toList, "Jupyter Notebook".toList],
      personalization_context }
  let metadata : LabGenerationMetadata :=
    { concept_name,
      concept_definition,
      source_topic := topic,
      model_used := some "template".toList,
      personalization_applied := personalization_context.isSome }
  .ok { lab, metadata, success := true, error := none }

/-- `TemplateLabGenerator._create_minimal_lab`. -/
def _create_minimal_lab (concept_name topic : Str) : PersonalizedLab :=
  { title := "Introduction to ".toList ++ concept_name,
    topic,
    difficulty := .medium,
    estimated_time := 45,
    sections :=
      [{ concept := concept_name,
         title := "Learning ".toList ++ concept_name,
         difficulty := .medium,
         scaffolding_level := .medium,
         exercises :=
           [{ type := .guided,
              hints := 3,
              description := some ("Explore ".toList ++ concept_name),
              starter_code := some "# TODO: Implement\n".toList,
              solution := some "# Solution\n".toList,
              test_cases := some [] }],
         learning_objectives := some ["Understand ".toList ++ concept_name],
         background := some ("This lab introduces ".toList ++ concept_name) }],
    prerequisites := some ["Basic programming".toList],
    technologies := some ["Python".toList],
    personalization_context := none }

/-- The `except Exception` branch of `TemplateLabGenerator.generate_lab`:
minimal fallback lab, `success=False`, `error=str(e)`. -/
def generate_lab_onError (concept_name concept_definition topic : Str)
    (e : Str) : CompleteLabResult :=
  { lab := _create_minimal_lab concept_name topic,
    metadata :=
      { concept_name,
        concept_definition,
        source_topic := topic,
        model_used := some "template".toList,
        personalization_applied := false },
    success := false,
    error := some e }

/-- The `try`/`except` frame of `TemplateLabGenerator.generate_lab`: the
result of a body that ran to completion is returned as is; an exception
escaping the body is converted into the fallback result. -/
def run_generate (body : Except Str CompleteLabResult)
    (concept_name concept_definition topic : Str) : CompleteLabResult :=
  match body with
  | .ok r => r
  | .error e => generate_lab_onError concept_name concept_definition topic e

/-- `TemplateLabGenerator.generate_lab`. -/
def generate_lab (concept_name concept_definition topic : Str)
    (personalization_context : Option Str) : CompleteLabResult :=
  run_generate (generate_lab_try concept_name concept_definition topic personalization_context)
    concept_name concept_definition topic

end TemplateLabGenerator

/-- Reference classifier written from the specification's words (§4.2 step 1,
§8): scan the fixed ordered keyword table, case-insensitively checking both
strings (the canonical keywords are lowercase, so matching them against the
lowercased inputs is the case-insensitive check) for each keyword in table
order, first match wins; with no match fall back to the length thresholds on
the definition: > 200 hard, > 100 medium, else easy. -/
def determine_difficulty_spec (concept_name definition : Str) : Difficulty :=
  match TemplateLabGenerator.difficulty_map.find?
      (fun kd => strIsInfixOf kd.1 (pyLower concept_name) ||
                 strIsInfixOf kd.1 (pyLower definition)) with
  | some kd => kd.2
  | none =>
    if definition.length > 200 then .hard
    else if definition.length > 100 then .medium
    else .easy

/-- The early-return keyword loop is the first-match (`find?`) scan of the table. -/
theorem lookupDifficulty_eq_find (table : List (Str × Difficulty)) (cl dl : Str) :
    TemplateLabGenerator.lookupDifficulty table cl dl =
      (table.find? (fun kd => strIsInfixOf kd.1 cl || strIsInfixOf kd.1 dl)).map (·.2) := by
  induction table with
  | nil => rfl
  | cons kd rest ih =>
    obtain ⟨k, d⟩ := kd
    by_cases h : (strIsInfixOf k cl || strIsInfixOf k dl) = true
    · simp [TemplateLabGenerator.lookupDifficulty, List.find?, h]
    · simp only [Bool.not_eq_true] at h
      simp [TemplateLabGenerator.lookupDifficulty, List.find?, h, ih]

/-- C1 counterexample: on `concept_name = "System Design"`,
`concept_definition = "a database technique"` the classifier does NOT return
hard: the first table hit is "database" (table position 1), not "system". -/
theorem determine_difficulty_system_design_not_hard :
    ¬ (TemplateLabGenerator._determine_difficulty
        "System Design".toList "a database technique".toList = Difficulty.hard) := by
  decide

/-- C1 (amended): the input `concept_name = "System Design"`,
`concept_definition = "a database technique"` is classified medium, because
the keyword "database" is the first table hit in canonical keyword order
(it matches the definition before "system" is ever tried). -/
theorem determine_difficulty_system_design_medium :
    TemplateLabGenerator._determine_difficulty
        "System Design".toList "a database technique".toList = Difficulty.medium ∧
    TemplateLabGenerator.difficulty_map.find?
        (fun kd => strIsInfixOf kd.1 (pyLower "System Design".toList) ||
                   strIsInfixOf kd.1 (pyLower "a database technique".toList)) =
      some ("database".toList, Difficulty.medium) := by
  constructor
  · decide
  · decide

/-- C2: the template generator's difficulty classifier coincides with the
specification's reference definition on every pair of input strings, and the
length-fallback boundaries are as stated: with no keyword match, a
201-character definition gives hard, 101 gives medium and 100 gives easy. -/
theorem determine_difficulty_eq_spec :
    (∀ concept_name definition : Str,
      TemplateLabGenerator._determine_difficulty concept_name definition =
        determine_difficulty_spec concept_name definition) ∧
    TemplateLabGenerator._determine_difficulty [] (List.replicate 201 'x') = .hard ∧
    TemplateLabGenerator._determine_difficulty [] (List.replicate 101 'x') = .medium ∧
    TemplateLabGenerator._determine_difficulty [] (List.replicate 100 'x') = .easy := by
  refine ⟨fun concept_name definition => ?_, by decide, by decide, by decide⟩
  simp only [TemplateLabGenerator._determine_difficulty, determine_difficulty_spec,
    lookupDifficulty_eq_find]
  cases TemplateLabGenerator.difficulty_map.find?
      (fun kd => strIsInfixOf kd.1 (pyLower concept_name) ||
                 strIsInfixOf kd.1 (pyLower definition)) <;> rfl

/-- The classifier only ever returns one of the three difficulty literals
(immediate from its type, recorded for case analyses below). -/
theorem determine_difficulty_cases (cn cd : Str) :
    TemplateLabGenerator._determine_difficulty cn cd = .easy ∨
    TemplateLabGenerator._determine_difficulty cn cd = .medium ∨
    TemplateLabGenerator._determine_difficulty cn cd = .hard := by
  cases TemplateLabGenerator._determine_difficulty cn cd <;> simp

/-- One concept object of the export file; `name`, `definition` and
`text_evidence` may each be absent (read with `concept.get(key, '')`). -/
structure ExportConcept where
  name : Option Str
  definition : Option Str
  text_evidence : Option Str

/-- One theory object of the export file; `topic` may be absent
(read with `theory.get('topic', 'Unknown')`). -/
structure ExportTheory where
  topic : Option Str
  concepts : List ExportConcept

/-- The export document (`data.get('theories', [])`). -/
structure ExportData where
  theories : List ExportTheory

/-- The dict literal appended by `load_concepts_from_export` for one concept,
with its keys in insertion order.  Note that the source keeps a fourth
`text_evidence` key (defaulting to the empty string). -/
def conceptRecord (topic : Str) (c : ExportConcept) : List (Str × Str) :=
  [("name".toList, c.name.getD []),
   ("definition".toList, c.definition.getD []),
   ("topic".toList, topic),
   ("text_evidence".toList, c.text_evidence.getD [])]

/-- `utils.file_utils.load_concepts_from_export`: the nested accumulation
loop over theories and their concepts. -/
def load_concepts_from_export (data : ExportData) : List (List (Str × Str)) :=
  data.theories.foldl
    (fun concepts th =>
      th.concepts.foldl
        (fun concepts c =>
          concepts ++ [conceptRecord (th.topic.getD "Unknown".toList) c])
        concepts)
    []

theorem foldl_append_map {α β : Type} (f : α → β) :
    ∀ (l : List α) (acc : List β),
      l.foldl (fun a c => a ++ [f c]) acc = acc ++ l.map f := by
  intro l
  induction l with
  | nil => intro acc; simp
  | cons c rest ih =>
    intro acc
    simp only [List.foldl_cons, List.map_cons, ih, List.append_assoc, List.singleton_append]

theorem load_concepts_foldl_eq :
    ∀ (ths : List ExportTheory) (acc : List (List (Str × Str))),
      ths.foldl
        (fun concepts th =>
          th.concepts.foldl
            (fun concepts c =>
              concepts ++ [conceptRecord (th.topic.getD "Unknown".toList) c])
            concepts)
        acc =
      acc ++ ths.flatMap (fun th =>
        th.concepts.map (conceptRecord (th.topic.getD "Unknown".toList))) := by
  intro ths
  induction ths with
  | nil => intro acc; simp
  | cons th rest ih =>
    intro acc
    rw [List.foldl_cons, foldl_append_map, ih, List.flatMap_cons, List.append_assoc]

/-- A one-theory, one-concept export (the theory carries no topic key), used
to exhibit what the produced record contains. -/
def sampleExport : ExportData :=
  { theories :=
      [{ topic := none,
         concepts := [{ name := some "A".toList,
                        definition := some "B".toList,
                        text_evidence := none }] }] }

/-- C5 counterexample: the produced record does NOT contain only the keys
name, definition and topic — the source keeps `text_evidence` as a fourth
key (defaulting to the empty string). -/
theorem load_concepts_record_not_only_three_fields :
    ¬ ((((load_concepts_from_export sampleExport).headD []).map Prod.fst) =
        ["name".toList, "definition".toList, "topic".toList]) ∧
    "text_evidence".toList ∈
      (((load_concepts_from_export sampleExport).headD []).map Prod.fst) := by
  decide

/-- C5 (amended): the reader flattens the export into a flat record list in
source order — concretely, the output is exactly the theories' concept lists
concatenated in order, each concept mapped to its record — where each record
holds the four keys name, definition, topic and text_evidence in that order
(text_evidence is kept, defaulting to the empty string, not discarded), and
the topic of a theory missing its topic field defaults to "Unknown". -/
theorem load_concepts_flatten :
    (∀ data : ExportData,
      load_concepts_from_export data =
        data.theories.flatMap (fun th =>
          th.concepts.map (conceptRecord (th.topic.getD "Unknown".toList)))) ∧
    (∀ data : ExportData,
      (load_concepts_from_export data).all
        (fun r => decide (r.map Prod.fst =
          ["name".toList, "definition".toList, "topic".toList,
           "text_evidence".toList])) = true) := by
  have hflat : ∀ data : ExportData,
      load_concepts_from_export data =
        data.theories.flatMap (fun th =>
          th.concepts.map (conceptRecord (th.topic.getD "Unknown".toList))) := by
    intro data
    unfold load_concepts_from_export
    rw [load_concepts_foldl_eq]
    rfl
  refine ⟨hflat, fun data => ?_⟩
  rw [hflat, List.all_eq_true]
  intro r hr
  rw [List.mem_flatMap] at hr
  obtain ⟨th, _, hr⟩ := hr
  rw [List.mem_map] at hr
  obtain ⟨c, _, rfl⟩ := hr
  simp [conceptRecord]

/-- Python regex `\w` (ASCII range; all characters the code ever compares
against are ASCII): letters, digits, underscore. -/
def isWordChar (c : Char) : Bool := c.isAlphanum || c = '_'

/-- The character class kept by `re.sub(r'[^\w\-_.]', '', ...)`. -/
def isKeptChar (c : Char) : Bool := isWordChar c || c = '-' || c = '_' || c = '.'

/-- `re.sub(r'_+', '_', s)`: each maximal run of underscores becomes a single
underscore.  The flag records whether the previous kept character was an
underscore. -/
def collapseGo : Bool → Str → Str
  | _, [] => []
  | prevUnderscore, c :: rest =>
    if c = '_' then
      if prevUnderscore then collapseGo true rest
      else '_' :: collapseGo true rest
    else c :: collapseGo false rest

/-- `re.sub(r'_+', '_', s)`. -/
def collapseUnderscores (s : Str) : Str := collapseGo false s

/-- Python `s.rstrip('_.')`: drop the trailing run of underscores and dots. -/
def rstripUnderscoreDot : Str → Str
  | [] => []
  | c :: rest =>
    let r := rstripUnderscoreDot rest
    if r.isEmpty && (c = '_' || c = '.') then [] else c :: r

/-- The `if len(sanitized) > max_length: sanitized = sanitized[:max_length]`
step of `sanitize_filename`. -/
def truncateTo (max_length : Nat) (s : Str) : Str :=
  if s.length > max_length then s.take max_length else s

/-- `utils.file_utils.sanitize_filename` (the `max_length` parameter defaults
to 100 in the source and is passed explicitly here). -/
def sanitize_filename (name : Str) (max_length : Nat) : Str :=
  rstripUnderscoreDot
    (truncateTo max_length
      (collapseUnderscores
        ((name.map (fun c => if c = ' ' then '_' else c)).filter isKeptChar)))

/-- Absence of adjacent underscores, as a chain condition. -/
def NoAdjUnderscore (s : Str) : Prop :=
  s.Chain' (fun a b => ¬(a = '_' ∧ b = '_'))

theorem mem_collapseGo {c : Char} : ∀ {b : Bool} {s : Str}, c ∈ collapseGo b s → c ∈ s := by
  intro b s
  induction s generalizing b with
  | nil => simp [collapseGo]
  | cons d rest ih =>
    intro hc
    simp only [collapseGo] at hc
    by_cases hd : d = '_'
    · subst hd
      cases b with
      | true => simp only [if_pos rfl, if_pos rfl] at hc; exact List.mem_cons_of_mem _ (ih hc)
      | false =>
        simp only [if_pos rfl, if_neg Bool.false_ne_true] at hc
        rcases List.mem_cons.mp hc with h | h
        · exact h ▸ List.mem_cons_self _ _
        · exact List.mem_cons_of_mem _ (ih h)
    · rw [if_neg hd] at hc
      rcases List.mem_cons.mp hc with h | h
      · exact h ▸ List.mem_cons_self _ _
      · exact List.mem_cons_of_mem _ (ih h)

theorem mem_rstripUnderscoreDot {c : Char} :
    ∀ {s : Str}, c ∈ rstripUnderscoreDot s → c ∈ s := by
  intro s
  induction s with
  | nil => simp [rstripUnderscoreDot]
  | cons d rest ih =>
    intro hc
    simp only [rstripUnderscoreDot] at hc
    split at hc
    · cases hc
    · rcases List.mem_cons.mp hc with h | h
      · exact h ▸ List.mem_cons_self _ _
      · exact List.mem_cons_of_mem _ (ih h)

/-- The collapse pass started in the "just saw an underscore" state never
emits a leading underscore. -/
theorem collapseGo_true_head :
    ∀ s : Str, ∀ d, (collapseGo true s).head? = some d → d ≠ '_' := by
  intro s
  induction s with
  | nil => intro d h; cases h
  | cons c rest ih =>
    intro d h
    by_cases hc : c = '_'
    · subst hc
      simp only [collapseGo, if_pos rfl, if_pos rfl] at h
      exact ih d h
    · simp only [collapseGo, if_neg hc, List.head?_cons, Option.some.injEq] at h
      exact h ▸ hc

/-- The collapse pass produces no adjacent underscores. -/
theorem noAdjUnderscore_collapseGo : ∀ (s : Str) (b : Bool), NoAdjUnderscore (collapseGo b s) := by
  intro s
  induction s with
  | nil => intro b; simp [collapseGo, NoAdjUnderscore]
  | cons c rest ih =>
    intro b
    by_cases hc : c = '_'
    · subst hc
      cases b with
      | true => simpa [collapseGo] using ih true
      | false =>
        show List.Chain' (fun a b => ¬(a = '_' ∧ b = '_')) ('_' :: collapseGo true rest)
        rw [List.chain'_cons']
        exact ⟨fun y hy => fun ⟨_, hy'⟩ => collapseGo_true_head rest y hy hy', ih true⟩
    · simp only [collapseGo, if_neg hc]
      rw [NoAdjUnderscore, List.chain'_cons']
      exact ⟨fun y hy => fun ⟨hc', _⟩ => hc hc', ih false⟩

/-- `rstrip` either empties the list or keeps its head. -/
theorem rstripUnderscoreDot_headEq :
    ∀ (s : Str) (d : Char), (rstripUnderscoreDot s).head? = some d → s.head? = some d := by
  intro s d h
  cases s with
  | nil => cases h
  | cons c rest =>
    simp only [rstripUnderscoreDot] at h
    split at h
    · cases h
    · simp only [List.head?_cons, Option.some.injEq] at h ⊢
      exact h

theorem noAdjUnderscore_rstrip :
    ∀ s : Str, NoAdjUnderscore s → NoAdjUnderscore (rstripUnderscoreDot s) := by
  intro s
  induction s with
  | nil => intro h; exact h
  | cons c rest ih =>
    intro h
    rw [NoAdjUnderscore, List.chain'_cons'] at h
    simp only [rstripUnderscoreDot]
    split
    · simp [NoAdjUnderscore]
    · rw [NoAdjUnderscore, List.chain'_cons']
      refine ⟨fun y hy => h.1 y (rstripUnderscoreDot_headEq rest y hy), ih h.2⟩

/-- On a list with no adjacent underscores the collapse pass is the
identity (in the start state; in the "just saw an underscore" state it is
the identity provided the list does not begin with an underscore). -/
theorem collapseGo_eq_self :
    ∀ s : Str, NoAdjUnderscore s →
      collapseGo false s = s ∧
      ((∀ d, s.head? = some d → d ≠ '_') → collapseGo true s = s) := by
  intro s
  induction s with
  | nil => exact fun _ => ⟨rfl, fun _ => rfl⟩
  | cons c rest ih =>
    intro h
    rw [NoAdjUnderscore, List.chain'_cons'] at h
    obtain ⟨hhead, htail⟩ := h
    obtain ⟨ihf, iht⟩ := ih htail
    by_cases hc : c = '_'
    · subst hc
      have hresttrue : collapseGo true rest = rest :=
        iht fun d hd => fun hd' => hhead d hd ⟨rfl, hd'⟩
      constructor
      · show '_' :: collapseGo true rest = '_' :: rest
        rw [hresttrue]
      · intro hno
        exact absurd rfl (hno '_' List.head?_cons)
    · constructor
      · simp only [collapseGo, if_neg hc, ihf]
      · intro _
        simp only [collapseGo, if_neg hc, ihf]

theorem length_rstrip_le : ∀ s : Str, (rstripUnderscoreDot s).length ≤ s.length := by
  intro s
  induction s with
  | nil => exact Nat.le_refl 0
  | cons c rest ih =>
    simp only [rstripUnderscoreDot]
    split
    · exact Nat.zero_le _
    · simp only [List.length_cons]
      exact Nat.succ_le_succ ih

theorem rstrip_rstrip : ∀ s : Str, rstripUnderscoreDot (rstripUnderscoreDot s) = rstripUnderscoreDot s := by
  intro s
  induction s with
  | nil => rfl
  | cons c rest ih =>
    simp only [rstripUnderscoreDot]
    split
    · rfl
    · rename_i hcond
      simp only [rstripUnderscoreDot, ih, if_neg hcond]

/-- Every character of a sanitized name lies in the kept character class. -/
theorem sanitize_filename_chars (x : Str) (max_length : Nat) :
    ∀ c ∈ sanitize_filename x max_length, isKeptChar c = true := by
  intro c hc
  unfold sanitize_filename at hc
  have h1 := mem_rstripUnderscoreDot hc
  have h2 : c ∈ collapseUnderscores ((x.map fun c => if c = ' ' then '_' else c).filter isKeptChar) := by
    unfold truncateTo at h1
    split at h1
    · exact List.take_subset _ _ h1
    · exact h1
  have h3 := mem_collapseGo h2
  exact List.of_mem_filter h3

theorem sanitize_filename_noAdj (x : Str) (max_length : Nat) :
    NoAdjUnderscore (sanitize_filename x max_length) := by
  unfold sanitize_filename
  apply noAdjUnderscore_rstrip
  unfold truncateTo
  split
  · exact (noAdjUnderscore_collapseGo _ false).take _
  · exact noAdjUnderscore_collapseGo _ false

theorem sanitize_filename_length_le (x : Str) (max_length : Nat) :
    (sanitize_filename x max_length).length ≤ max_length := by
  unfold sanitize_filename
  refine Nat.le_trans (length_rstrip_le _) ?_
  unfold truncateTo
  split
  · simp only [List.length_take]
    exact Nat.min_le_left _ _
  · omega

/-- The JSON string of a difficulty literal. -/
def difficultyStr : Difficulty → Str
  | .easy => "easy".toList
  | .medium => "medium".toList
  | .hard => "hard".toList

/-- The JSON string of an exercise-type literal. -/
def exerciseTypeStr : ExerciseType → Str
  | .guided => "guided".toList
  | .challenge => "challenge".toList
  | .exploration => "exploration".toList

/-- The JSON string of a scaffolding literal. -/
def scaffoldingStr : Scaffolding → Str
  | .low => "low".toList
  | .medium => "medium".toList
  | .high => "high".toList

/-- Parse every element of a list, failing when any element fails (the
behaviour of pydantic on list fields). -/
def mapMOption {α β : Type} (f : α → Option β) : List α → Option (List β)
  | [] => some []
  | x :: xs => do
    let y ← f x
    let ys ← mapMOption f xs
    some (y :: ys)

/-- An optional string field under `model_dump`: `None` becomes JSON null. -/
def optStrJson : Option Str → Json
  | none => .null
  | some s => .str s

/-- An optional string-list field under `model_dump`. -/
def optStrListJson : Option (List Str) → Json
  | none => .null
  | some l => .arr (l.map Json.str)

/-- The `test_cases` field under `model_dump`. -/
def testCasesJson : Option (List (List (Str × Json))) → Json
  | none => .null
  | some tcs => .arr (tcs.map Json.obj)

/-- `LabExercise.model_dump()`: pydantic dumps every field, `None` as null,
in declaration order. -/
def LabExercise.model_dump (e : LabExercise) : Json :=
  .obj [("type".toList, .str (exerciseTypeStr e.type)),
        ("hints".toList, .int e.hints),
        ("description".toList, optStrJson e.description),
        ("starter_code".toList, optStrJson e.starter_code),
        ("solution".toList, optStrJson e.solution),
        ("test_cases".toList, testCasesJson e.test_cases)]

/-- `LabSection.model_dump()`. -/
def LabSection.model_dump (s : LabSection) : Json :=
  .obj [("concept".toList, .str s.concept),
        ("title".toList, .str s.title),
        ("difficulty".toList, .str (difficultyStr s.difficulty)),
        ("scaffolding_level".toList, .str (scaffoldingStr s.scaffolding_level)),
        ("exercises".toList, .arr (s.exercises.map LabExercise.model_dump)),
        ("learning_objectives".toList, optStrListJson s.learning_objectives),
        ("background".toList, optStrJson s.background)]

/-- `PersonalizedLab.model_dump()`. -/
def PersonalizedLab.model_dump (l : PersonalizedLab) : Json :=
  .obj [("title".toList, .str l.title),
        ("topic".toList, .str l.topic),
        ("difficulty".toList, .str (difficultyStr l.difficulty)),
        ("estimated_time".toList, .int l.estimated_time),
        ("sections".toList, .arr (l.sections.map LabSection.model_dump)),
        ("prerequisites".toList, optStrListJson l.prerequisites),
        ("technologies".toList, optStrListJson l.technologies),
        ("personalization_context".toList, optStrJson l.personalization_context)]

/-- `LabGenerationMetadata.model_dump()`. -/
def LabGenerationMetadata.model_dump (m : LabGenerationMetadata) : Json :=
  .obj [("concept_name".toList, .str m.concept_name),
        ("concept_definition".toList, .str m.concept_definition),
        ("source_topic".toList, .str m.source_topic),
        ("model_used".toList, optStrJson m.model_used),
        ("personalization_applied".toList, .bool m.personalization_applied)]

/-- The two JSON artifact shapes built by `organize_lab_output`: the full
`{lab, metadata, success[, error]}` document and the simplified document
holding just the lab fields (`lab_content.json`).  The `error` key is added
only when `lab_result.error` is truthy, as in the source. -/
def organize_lab_output_data (lab_result : CompleteLabResult) : Json × Json :=
  let lab_data :=
    Json.obj
      ([("lab".toList, lab_result.lab.model_dump),
        ("metadata".toList, lab_result.metadata.model_dump),
        ("success".toList, Json.bool lab_result.success)] ++
       match lab_result.error with
       | some e => if e.isEmpty then [] else [("error".toList, Json.str e)]
       | none => [])
  (lab_data, lab_result.lab.model_dump)

/-- Re-parsing a JSON string field (pydantic `str`). -/
def parseStrJson : Json → Option Str
  | .str s => some s
  | _ => none

/-- Re-parsing an `Optional[str]` field. -/
def parseOptStr : Json → Option (Option Str)
  | .null => some none
  | .str s => some (some s)
  | _ => none

/-- Re-parsing an `Optional[List[str]]` field. -/
def parseOptStrList : Json → Option (Option (List Str))
  | .null => some none
  | .arr elems => (mapMOption parseStrJson elems).map some
  | _ => none

/-- Re-parsing the difficulty literal. -/
def parseDifficulty : Json → Option Difficulty
  | .str s =>
    if s = "easy".toList then some .easy
    else if s = "medium".toList then some .medium
    else if s = "hard".toList then some .hard
    else none
  | _ => none

/-- Re-parsing the exercise-type literal. -/
def parseExerciseType : Json → Option ExerciseType
  | .str s =>
    if s = "guided".toList then some .guided
    else if s = "challenge".toList then some .challenge
    else if s = "exploration".toList then some .exploration
    else none
  | _ => none

/-- Re-parsing the scaffolding literal. -/
def parseScaffolding : Json → Option Scaffolding
  | .str s =>
    if s = "low".toList then some .low
    else if s = "medium".toList then some .medium
    else if s = "high".toList then some .high
    else none
  | _ => none

/-- Re-parsing `hints` with its pydantic `ge=0, le=5` bounds. -/
def parseHints : Json → Option Int
  | .int n => if 0 ≤ n ∧ n ≤ 5 then some n else none
  | _ => none

/-- Re-parsing `estimated_time` with its pydantic `ge=15, le=180` bounds. -/
def parseEstimatedTime : Json → Option Int
  | .int n => if 15 ≤ n ∧ n ≤ 180 then some n else none
  | _ => none

/-- Re-parsing `Optional[List[dict]]` (`test_cases`): each entry must be an
object. -/
def parseTestCases : Json → Option (Option (List (List (Str × Json))))
  | .null => some none
  | .arr elems =>
    (mapMOption (fun j => match j with | .obj f => some f | _ => none) elems).map some
  | _ => none

/-- An optional pydantic field: a missing key takes the default `None`. -/
def optField {α : Type} (fields : List (Str × Json)) (key : Str)
    (p : Json → Option (Option α)) : Option (Option α) :=
  match fields.lookup key with
  | none => some none
  | some j => p j

/-- `LabExercise(**data)`: pydantic construction from a parsed dict. -/
def parseLabExercise : Json → Option LabExercise
  | .obj fields => do
    let tyj ← fields.lookup "type".toList
    let ty ← parseExerciseType tyj
    let hj ← fields.lookup "hints".toList
    let h ← parseHints hj
    let d ← optField fields "description".toList parseOptStr
    let sc ← optField fields "starter_code".toList parseOptStr
    let sol ← optField fields "solution".toList parseOptStr
    let tc ← optField fields "test_cases".toList parseTestCases
    some { type := ty, hints := h, description := d, starter_code := sc,
           solution := sol, test_cases := tc }
  | _ => none

/-- `LabSection(**data)`: pydantic construction, including the
`min_length=1` check on `exercises`. -/
def parseLabSection : Json → Option LabSection
  | .obj fields => do
    let cj ← fields.lookup "concept".toList
    let c ← parseStrJson cj
    let tj ← fields.lookup "title".toList
    let t ← parseStrJson tj
    let dj ← fields.lookup "difficulty".toList
    let d ← parseDifficulty dj
    let slj ← fields.lookup "scaffolding_level".toList
    let sl ← parseScaffolding slj
    let ej ← fields.lookup "exercises".toList
    let exs ← match ej with
              | .arr elems => mapMOption parseLabExercise elems
              | _ => none
    if exs.isEmpty then none
    else do
      let lo ← optField fields "learning_objectives".toList parseOptStrList
      let bg ← optField fields "background".toList parseOptStr
      some { concept := c, title := t, difficulty := d, scaffolding_level := sl,
             exercises := exs, learning_objectives := lo, background := bg }
  | _ => none

/-- `PersonalizedLab(**data)`: pydantic construction, including the bounds
on `estimated_time` and the `min_length=1` check on `sections`. -/
def parsePersonalizedLab : Json → Option PersonalizedLab
  | .obj fields => do
    let tj ← fields.lookup "title".toList
    let t ← parseStrJson tj
    let toj ← fields.lookup "topic".toList
    let tp ← parseStrJson toj
    let dj ← fields.lookup "difficulty".toList
    let d ← parseDifficulty dj
    let ej ← fields.lookup "estimated_time".toList
    let et ← parseEstimatedTime ej
    let sj ← fields.lookup "sections".toList
    let secs ← match sj with
               | .arr elems => mapMOption parseLabSection elems
               | _ => none
    if secs.isEmpty then none
    else do
      let pre ← optField fields "prerequisites".toList parseOptStrList
      let tech ← optField fields "technologies".toList parseOptStrList
      let pc ← optField fields "personalization_context".toList parseOptStr
      some { title := t, topic := tp, difficulty := d, estimated_time := et,
             sections := secs, prerequisites := pre, technologies := tech,
             personalization_context := pc }
  | _ => none

theorem parseOptStr_roundtrip (x : Option Str) : parseOptStr (optStrJson x) = some x := by
  cases x <;> rfl

theorem mapM_parseStr_roundtrip :
    ∀ l : List Str, mapMOption parseStrJson (l.map Json.str) = some l := by
  intro l
  induction l with
  | nil => rfl
  | cons s rest ih => simp [mapMOption, ih, parseStrJson]

theorem parseOptStrList_roundtrip (x : Option (List Str)) :
    parseOptStrList (optStrListJson x) = some x := by
  cases x with
  | none => rfl
  | some l => simp [optStrListJson, parseOptStrList, mapM_parseStr_roundtrip]

theorem parseDifficulty_roundtrip (d : Difficulty) :
    parseDifficulty (.str (difficultyStr d)) = some d := by
  cases d <;> rfl

theorem parseExerciseType_roundtrip (t : ExerciseType) :
    parseExerciseType (.str (exerciseTypeStr t)) = some t := by
  cases t <;> rfl

theorem parseScaffolding_roundtrip (s : Scaffolding) :
    parseScaffolding (.str (scaffoldingStr s)) = some s := by
  cases s <;> rfl

theorem mapM_obj_roundtrip :
    ∀ tcs : List (List (Str × Json)),
      mapMOption (fun j => match j with | Json.obj f => some f | _ => none)
        (tcs.map Json.obj) = some tcs := by
  intro tcs
  induction tcs with
  | nil => rfl
  | cons f rest ih => simp [mapMOption, ih]

theorem parseTestCases_roundtrip (tc : Option (List (List (Str × Json)))) :
    parseTestCases (testCasesJson tc) = some tc := by
  cases tc with
  | none => rfl
  | some tcs => simp [testCasesJson, parseTestCases, mapM_obj_roundtrip]

theorem parseLabExercise_roundtrip (e : LabExercise) (he : e.validB = true) :
    parseLabExercise e.model_dump = some e := by
  obtain ⟨ty, h, d, sc, sol, tc⟩ := e
  simp only [LabExercise.validB, decide_eq_true_eq] at he
  simp [parseLabExercise, LabExercise.model_dump, List.lookup, optField,
    parseExerciseType_roundtrip, parseHints, he.1, he.2,
    parseOptStr_roundtrip, parseTestCases_roundtrip]

theorem mapM_parseLabExercise_roundtrip :
    ∀ exs : List LabExercise, (∀ e ∈ exs, e.validB = true) →
      mapMOption parseLabExercise (exs.map LabExercise.model_dump) = some exs := by
  intro exs hall
  induction exs with
  | nil => rfl
  | cons e rest ih =>
    simp [mapMOption,
      parseLabExercise_roundtrip e (hall e (List.mem_cons_self e rest)),
      ih (fun x hx => hall x (List.mem_cons_of_mem e hx))]

theorem parseLabSection_roundtrip (s : LabSection) (hs : s.validB = true) :
    parseLabSection s.model_dump = some s := by
  obtain ⟨c, t, d, sl, exs, lo, bg⟩ := s
  simp only [LabSection.validB, Bool.and_eq_true, Bool.not_eq_eq_eq_not, Bool.not_true,
    List.all_eq_true] at hs
  simp [parseLabSection, LabSection.model_dump, List.lookup, optField,
    parseStrJson, parseDifficulty_roundtrip, parseScaffolding_roundtrip,
    mapM_parseLabExercise_roundtrip exs (fun e hx => hs.2 e hx),
    hs.1, parseOptStrList_roundtrip, parseOptStr_roundtrip]

theorem mapM_parseLabSection_roundtrip :
    ∀ secs : List LabSection, (∀ s ∈ secs, s.validB = true) →
      mapMOption parseLabSection (secs.map LabSection.model_dump) = some secs := by
  intro secs hall
  induction secs with
  | nil => rfl
  | cons s rest ih =>
    simp [mapMOption,
      parseLabSection_roundtrip s (hall s (List.mem_cons_self s rest)),
      ih (fun x hx => hall x (List.mem_cons_of_mem s hx))]

theorem parsePersonalizedLab_roundtrip (l : PersonalizedLab) (hl : l.validB = true) :
    parsePersonalizedLab l.model_dump = some l := by
  obtain ⟨t, tp, d, et, secs, pre, tech, pc⟩ := l
  simp only [PersonalizedLab.validB, Bool.and_eq_true, decide_eq_true_eq,
    Bool.not_eq_eq_eq_not, Bool.not_true, List.all_eq_true] at hl
  simp [parsePersonalizedLab, PersonalizedLab.model_dump, List.lookup, optField,
    parseStrJson, parseDifficulty_roundtrip, parseEstimatedTime,
    hl.1.1.1, hl.1.1.2, hl.1.2,
    mapM_parseLabSection_roundtrip secs (fun s hx => hl.2 s hx),
    parseOptStrList_roundtrip, parseOptStr_roundtrip]

/-- C9: for every GenerationResult, re-parsing the "simplified" artifact of
`organize_lab_output` (just the Lab fields, as written to lab_content.json)
as a `PersonalizedLab` recovers the original Lab field for field.  The
hypothesis records that the lab satisfies its pydantic field constraints,
which hold for every constructed `PersonalizedLab` instance. -/
theorem simplified_artifact_roundtrip (lab_result : CompleteLabResult)
    (h : lab_result.lab.validB = true) :
    parsePersonalizedLab (organize_lab_output_data lab_result).2 =
      some lab_result.lab := by
  exact parsePersonalizedLab_roundtrip lab_result.lab h

/-- A concrete GenerationResult (a minimal fallback lab with its metadata)
used to witness the round-trip theorem. -/
def sampleLabResult : CompleteLabResult :=
  { lab := TemplateLabGenerator._create_minimal_lab "CAP Theorem".toList "Databases".toList,
    metadata := { concept_name := "CAP Theorem".toList,
                  concept_definition := "a tradeoff".toList,
                  source_topic := "Databases".toList,
                  model_used := some "template".toList,
                  personalization_applied := false },
    success := false,
    error := some "boom".toList }

/-- C9 witness: the round-trip theorem applied to a concrete result. -/
theorem simplified_artifact_roundtrip_witness :
    sampleLabResult.lab.validB = true ∧
    parsePersonalizedLab (organize_lab_output_data sampleLabResult).2 =
      some sampleLabResult.lab :=
  ⟨rfl, simplified_artifact_roundtrip sampleLabResult rfl⟩

/-- C8: filename sanitization is idempotent — sanitizing twice (with the
same maximum length, default 100) equals sanitizing once — and
`sanitize_filename "CAP Theorem!!" = "CAP_Theorem"`. -/
theorem sanitize_filename_idempotent :
    (∀ (x : Str) (max_length : Nat),
      sanitize_filename (sanitize_filename x max_length) max_length =
        sanitize_filename x max_length) ∧
    sanitize_filename "CAP Theorem!!".toList 100 = "CAP_Theorem".toList := by
  constructor
  · intro x max_length
    have hkept := sanitize_filename_chars x max_length
    have hnoadj := sanitize_filename_noAdj x max_length
    have hlen := sanitize_filename_length_le x max_length
    conv_lhs => rw [sanitize_filename]
    have hmap : (sanitize_filename x max_length).map (fun c => if c = ' ' then '_' else c) =
        sanitize_filename x max_length := by
      rw [List.map_congr_left (fun c hc => ?_), List.map_id]
      have : c ≠ ' ' := by
        intro hsp
        have := hkept c hc
        rw [hsp] at this
        exact absurd this (by decide)
      simp [this]
    rw [hmap, List.filter_eq_self.mpr hkept]
    rw [show collapseUnderscores (sanitize_filename x max_length) =
          sanitize_filename x max_length from
        (collapseGo_eq_self _ hnoadj).1]
    rw [show truncateTo max_length (sanitize_filename x max_length) =
          sanitize_filename x max_length by
        unfold truncateTo; rw [if_neg (by omega)]]
    show rstripUnderscoreDot (sanitize_filename x max_length) = sanitize_filename x max_length
    conv_lhs => rw [sanitize_filename]
    rw [rstrip_rstrip]
    rfl
  · decide

/-- C4: the template generator is total — on every input the `try` body runs
to completion (produces `.ok`), and `generate_lab` returns exactly that
result; and the `except` frame converts any exception `e` escaping the body
into a result with `success = false`, `error` set to the exception's
description, and `lab` the minimal fallback lab. -/
theorem template_generate_lab_total :
    ∀ (concept_name concept_definition topic : Str) (pc : Option Str) (e : Str),
      (TemplateLabGenerator.generate_lab_try concept_name concept_definition topic pc).isOk
        = true ∧
      TemplateLabGenerator.generate_lab concept_name concept_definition topic pc =
        TemplateLabGenerator.run_generate
          (TemplateLabGenerator.generate_lab_try concept_name concept_definition topic pc)
          concept_name concept_definition topic ∧
      (TemplateLabGenerator.run_generate (.error e)
          concept_name concept_definition topic).success = false ∧
      (TemplateLabGenerator.run_generate (.error e)
          concept_name concept_definition topic).error = some e ∧
      (TemplateLabGenerator.run_generate (.error e)
          concept_name concept_definition topic).lab =
        TemplateLabGenerator._create_minimal_lab concept_name topic := by
  intro concept_name concept_definition topic pc e
  exact ⟨rfl, rfl, rfl, rfl, rfl⟩

/-- C7: on every concept the template generator's lab has exactly one
section whose exercises are exactly one guided exercise with 3 hints when
the concept's difficulty is easy and 2 hints otherwise, followed — exactly
when the difficulty is medium or hard — by one challenge exercise with
1 hint; and no exploration exercise is ever produced. -/
theorem template_exercises_shape :
    ∀ (concept_name concept_definition topic : Str) (pc : Option Str),
      ((TemplateLabGenerator.generate_lab concept_name concept_definition topic pc).lab.sections.map
          (fun s => s.exercises.map (fun ex => (ex.type, ex.hints)))) =
        [if TemplateLabGenerator._determine_difficulty concept_name concept_definition
            = Difficulty.easy
         then [(ExerciseType.guided, (3 : Int))]
         else [(ExerciseType.guided, (2 : Int)), (ExerciseType.challenge, (1 : Int))]] ∧
      ((TemplateLabGenerator.generate_lab concept_name concept_definition topic pc).lab.sections.all
          (fun s => s.exercises.all
            (fun ex => decide (ex.type ≠ ExerciseType.exploration)))) = true := by
  intro concept_name concept_definition topic pc
  rcases determine_difficulty_cases concept_name concept_definition with h | h | h <;>
    refine ⟨?_, ?_⟩ <;>
    simp [TemplateLabGenerator.generate_lab, TemplateLabGenerator.run_generate,
      TemplateLabGenerator.generate_lab_try, TemplateLabGenerator._create_exercises, h]

/-- C10: on every input the template generator's lab — on the success path
and equally on the exception fallback path — satisfies the structural
invariants: at least one section, every section with at least one exercise,
every hint count in [0, 5], estimated time in [15, 180], and every exercise
kind one of guided/challenge/exploration. -/
theorem template_lab_invariants :
    ∀ (concept_name concept_definition topic : Str) (pc : Option Str) (e : Str),
      (TemplateLabGenerator.generate_lab concept_name concept_definition topic pc).lab.validB
        = true ∧
      (TemplateLabGenerator.run_generate (.error e)
          concept_name concept_definition topic).lab.validB = true ∧
      ((TemplateLabGenerator.generate_lab concept_name concept_definition topic pc).lab.sections.all
          (fun s => s.exercises.all
            (fun ex => decide (ex.type = ExerciseType.guided ∨
                               ex.type = ExerciseType.challenge ∨
                               ex.type = ExerciseType.exploration)))) = true := by
  intro concept_name concept_definition topic pc e
  refine ⟨?_, rfl, ?_⟩ <;>
  rcases determine_difficulty_cases concept_name concept_definition with h | h | h <;>
    simp [TemplateLabGenerator.generate_lab, TemplateLabGenerator.run_generate,
      TemplateLabGenerator.generate_lab_try, TemplateLabGenerator._create_exercises,
      TemplateLabGenerator._estimate_time, TemplateLabGenerator.base_time,
      PersonalizedLab.validB, LabSection.validB, LabExercise.validB, h]

namespace LabGenerationService

/-- `LabGenerationService._create_fallback_lab`. -/
def _create_fallback_lab (concept_name topic : Str) : PersonalizedLab :=
  { title := "Introduction to ".toList ++ concept_name,
    topic,
    difficulty := .medium,
    estimated_time := 45,
    sections :=
      [{ concept := concept_name,
         title := "Exploring ".toList ++ concept_name,
         difficulty := .medium,
         scaffolding_level := .medium,
         exercises :=
           [{ type := .guided,
              hints := 3,
              description := some ("Learn the basics of ".toList ++ concept_name),
              starter_code := some "# TODO: Implement your solution here\n".toList,
              solution := some "# Solution will be provided".toList,
              test_cases := some [] }],
         learning_objectives := some ["Understand ".toList ++ concept_name],
         background := some ("This lab introduces ".toList ++ concept_name) }],
    prerequisites := some ["Basic programming knowledge".toList],
    technologies := some ["Python".toList, "Jupyter Notebook".toList],
    personalization_context := none }

/-- The opening f-string of `_create_lab_prompt` (concept header). -/
def promptHeader (concept_name concept_definition topic : Str) : Str :=
  ("You are an expert educator creating hands-on coding labs for big data and database concepts.\n\n" ++
   "Generate a personalized lab for the following concept:\n\n" ++
   "**Concept**: ").toList ++ concept_name ++
  "\n**Definition**: ".toList ++ concept_definition ++
  "\n**Topic**: ".toList ++ topic ++ "\n".toList

/-- The personalization addition of `_create_lab_prompt`, appended only when
the context argument is truthy. -/
def promptPersonalization (personalization_context : Str) : Str :=
  "\n**Personalization Context**: ".toList ++ personalization_context ++
  ("\n\nPlease incorporate this context into the lab examples and scenarios to make it more engaging and relatable.\n" ++
   "For example, if the context is \"gaming\", use gaming-related examples like player databases, leaderboards, etc.\n").toList

/-- The fixed closing block of `_create_lab_prompt`: instructions plus the
exact target JSON shape the service must return. -/
def promptStructure : Str :=
  ("\n\nCreate a comprehensive lab with the following structure:\n\n" ++
   "1. **Title**: An engaging title that captures the essence of the lab\n" ++
   "2. **Difficulty**: Choose from \x27easy\x27, \x27medium\x27, or \x27hard\x27 based on concept complexity\n" ++
   "3. **Estimated Time**: Realistic time estimate in minutes (15-180)\n" ++
   "4. **Sections**: Create 1-3 sections, each with:\n" ++
   "   - A specific aspect of the concept to explore\n" ++
   "   - Appropriate difficulty level\n" ++
   "   - Scaffolding level (low/medium/high) based on complexity\n" ++
   "   - 1-3 exercises with:\n" ++
   "     * Type: \x27guided\x27 (step-by-step), \x27challenge\x27 (minimal guidance), or \x27exploration\x27 (open-ended)\n" ++
   "     * Number of hints (0-5)\n" ++
   "     * Description of what to implement\n" ++
   "     * Starter code template\n" ++
   "     * Reference solution\n" ++
   "     * Test cases for validation\n\n" ++
   "5. **Prerequisites**: List any required knowledge\n" ++
   "6. **Technologies**: List technologies/tools used (e.g., Python, MongoDB, Jupyter)\n\n" ++
   "Make the lab practical, hands-on, and focused on real-world applications of the concept.\n" ++
   "Include code examples that students can actually run and modify.\n\n" ++
   "Return ONLY valid JSON matching this exact structure:\n" ++
   "\x7b\n" ++
   "  \"title\": \"string\",\n" ++
   "  \"topic\": \"string\",\n" ++
   "  \"difficulty\": \"easy|medium|hard\",\n" ++
   "  \"estimated_time\": number,\n" ++
   "  \"sections\": [\n" ++
   "    \x7b\n" ++
   "      \"concept\": \"string\",\n" ++
   "      \"title\": \"string\",\n" ++
   "      \"difficulty\": \"easy|medium|hard\",\n" ++
   "      \"scaffolding_level\": \"low|medium|high\",\n" ++
   "      \"exercises\": [\n" ++
   "        \x7b\n" ++
   "          \"type\": \"guided|challenge|exploration\",\n" ++
   "          \"hints\": number,\n" ++
   "          \"description\": \"string\",\n" ++
   "          \"starter_code\": \"string\",\n" ++
   "          \"solution\": \"string\",\n" ++
   "          \"test_cases\": [\x7b\"input\": \"...\", \"expected\": \"...\"\x7d]\n" ++
   "        \x7d\n" ++
   "      ],\n" ++
   "      \"learning_objectives\": [\"string\"],\n" ++
   "      \"background\": \"string\"\n" ++
   "    \x7d\n" ++
   "  ],\n" ++
   "  \"prerequisites\": [\"string\"],\n" ++
   "  \"technologies\": [\"string\"],\n" ++
   "  \"personalization_context\": \"string or null\"\n" ++
   "\x7d\n").toList

/-- `LabGenerationService._create_lab_prompt`: header, then the
personalization block only when the context is truthy (non-None and
non-empty), then the fixed structure block. -/
def _create_lab_prompt (concept_name concept_definition topic : Str)
    (personalization_context : Option Str) : Str :=
  let base_prompt := promptHeader concept_name concept_definition topic
  let base_prompt :=
    match personalization_context with
    | some pc => if pc.isEmpty then base_prompt
                 else base_prompt ++ promptPersonalization pc
    | none => base_prompt
  base_prompt ++ promptStructure

/-- The message of the pydantic `ValidationError` raised when
`PersonalizedLab(**lab_data)` rejects the parsed response (its `str(e)` is
non-empty in CPython). -/
def pydanticValidationErrorMsg : Str :=
  "validation error for PersonalizedLab".toList

/-- The try-block body of `LabGenerationService.generate_lab`.  The external
LLM call (`self.llm.invoke`) and the langchain `JsonOutputParser.parse` are
the external collaborators, passed as fallible functions; each is invoked
exactly once, so no retry exists by construction.  `PersonalizedLab(**lab_data)`
is the validating parser `parsePersonalizedLab`. -/
def generate_lab_try (llm_invoke : Str → Except Str Str)
    (parser_parse : Str → Except Str Json) (model_name : Str)
    (concept_name concept_definition topic : Str)
    (personalization_context : Option Str) : Except Str CompleteLabResult := do
  let response ← llm_invoke
    (_create_lab_prompt concept_name concept_definition topic personalization_context)
  let lab_data ← parser_parse response
  match parsePersonalizedLab lab_data with
  | none => .error pydanticValidationErrorMsg
  | some lab =>
    .ok { lab,
          metadata :=
            { concept_name,
              concept_definition,
              source_topic := topic,
              model_used := some model_name,
              personalization_applied := personalization_context.isSome },
          success := true,
          error := none }

/-- The `except Exception` branch of `LabGenerationService.generate_lab`:
fallback lab, `success=False`, `error=str(e)`. -/
def generate_lab_onError (model_name concept_name concept_definition topic : Str)
    (e : Str) : CompleteLabResult :=
  { lab := _create_fallback_lab concept_name topic,
    metadata :=
      { concept_name,
        concept_definition,
        source_topic := topic,
        model_used := some model_name,
        personalization_applied := false },
    success := false,
    error := some e }

/-- `LabGenerationService.generate_lab`. -/
def generate_lab (llm_invoke : Str → Except Str Str)
    (parser_parse : Str → Except Str Json) (model_name : Str)
    (concept_name concept_definition topic : Str)
    (personalization_context : Option Str) : CompleteLabResult :=
  match generate_lab_try llm_invoke parser_parse model_name concept_name
      concept_definition topic personalization_context with
  | .ok r => r
  | .error e => generate_lab_onError model_name concept_name concept_definition topic e

end LabGenerationService

theorem except_bind_ok {ε α β : Type} (a : α) (f : α → Except ε β) :
    (Except.ok a : Except ε α) >>= f = f a := rfl

theorem except_bind_error {ε α β : Type} (e : ε) (f : α → Except ε β) :
    (Except.error e : Except ε α) >>= f = Except.error e := rfl

/-- C3: whenever the prompted generator's external call or its
response-parse step fails (with a described failure `e` and, per the §4.1
input contract, a non-empty concept name), `generate_lab` returns
`succeeded = false` with the failure's description as non-empty error
message and, as lab, exactly the minimal fallback — one section, one guided
exercise with 3 hints, difficulty medium, estimated time 45 — which
satisfies every Lab/Section/Exercise invariant of §3; the external call and
the parse are each invoked at most once, so no retry is attempted. -/
theorem prompted_generator_fallback
    (llm_invoke : Str → Except Str Str) (parser_parse : Str → Except Str Json)
    (model_name concept_name concept_definition topic : Str)
    (personalization_context : Option Str) (e : Str)
    (hname : concept_name ≠ [])
    (he : e ≠ [])
    (hfail :
      llm_invoke (LabGenerationService._create_lab_prompt concept_name concept_definition
          topic personalization_context) = .error e ∨
      (∃ response,
        llm_invoke (LabGenerationService._create_lab_prompt concept_name concept_definition
            topic personalization_context) = .ok response ∧
        parser_parse response = .error e)) :
    (LabGenerationService.generate_lab llm_invoke parser_parse model_name concept_name
        concept_definition topic personalization_context).success = false ∧
    (LabGenerationService.generate_lab llm_invoke parser_parse model_name concept_name
        concept_definition topic personalization_context).error = some e ∧
    e ≠ [] ∧
    (LabGenerationService.generate_lab llm_invoke parser_parse model_name concept_name
        concept_definition topic personalization_context).lab =
      LabGenerationService._create_fallback_lab concept_name topic ∧
    (LabGenerationService._create_fallback_lab concept_name topic).specValidB = true ∧
    (LabGenerationService._create_fallback_lab concept_name topic).difficulty = .medium ∧
    (LabGenerationService._create_fallback_lab concept_name topic).estimated_time = 45 ∧
    (LabGenerationService._create_fallback_lab concept_name topic).sections.map
        (fun s => s.exercises.map (fun ex => (ex.type, ex.hints))) =
      [[(ExerciseType.guided, (3 : Int))]] := by
  have htry : LabGenerationService.generate_lab_try llm_invoke parser_parse model_name
      concept_name concept_definition topic personalization_context = .error e := by
    unfold LabGenerationService.generate_lab_try
    rcases hfail with h | ⟨response, hok, herr⟩
    · rw [h]
      rfl
    · rw [hok]
      show parser_parse response >>= _ = Except.error e
      rw [herr]
      rfl
  have hvalid : (LabGenerationService._create_fallback_lab concept_name topic).specValidB
      = true := by
    simp [LabGenerationService._create_fallback_lab, PersonalizedLab.specValidB,
      LabSection.specValidB, LabSection.validB, LabExercise.validB, hname]
  refine ⟨?_, ?_, he, ?_, hvalid, rfl, rfl, rfl⟩ <;>
    simp [LabGenerationService.generate_lab, htry, LabGenerationService.generate_lab_onError]

/-- An external call that always fails with a description. -/
def failing_llm_invoke : Str → Except Str Str :=
  fun _ => .error "API connection error".toList

/-- A parse step never reached in the witness scenario. -/
def unused_parser_parse : Str → Except Str Json :=
  fun _ => .error "unreachable".toList

/-- C3 witness: the fallback guarantee at a concrete failing input. -/
theorem prompted_generator_fallback_witness :
    "CAP Theorem".toList ≠ ([] : Str) ∧
    "API connection error".toList ≠ ([] : Str) ∧
    ((LabGenerationService.generate_lab failing_llm_invoke unused_parser_parse
        "gpt-4".toList "CAP Theorem".toList "a tradeoff".toList "Databases".toList
        none).success = false ∧
     (LabGenerationService.generate_lab failing_llm_invoke unused_parser_parse
        "gpt-4".toList "CAP Theorem".toList "a tradeoff".toList "Databases".toList
        none).error = some "API connection error".toList ∧
     "API connection error".toList ≠ ([] : Str) ∧
     (LabGenerationService.generate_lab failing_llm_invoke unused_parser_parse
        "gpt-4".toList "CAP Theorem".toList "a tradeoff".toList "Databases".toList
        none).lab =
       LabGenerationService._create_fallback_lab "CAP Theorem".toList "Databases".toList ∧
     (LabGenerationService._create_fallback_lab "CAP Theorem".toList
        "Databases".toList).specValidB = true ∧
     (LabGenerationService._create_fallback_lab "CAP Theorem".toList
        "Databases".toList).difficulty = .medium ∧
     (LabGenerationService._create_fallback_lab "CAP Theorem".toList
        "Databases".toList).estimated_time = 45 ∧
     (LabGenerationService._create_fallback_lab "CAP Theorem".toList
        "Databases".toList).sections.map
         (fun s => s.exercises.map (fun ex => (ex.type, ex.hints))) =
       [[(ExerciseType.guided, (3 : Int))]]) :=
  ⟨by decide, by decide,
   prompted_generator_fallback failing_llm_invoke unused_parser_parse
     "gpt-4".toList "CAP Theorem".toList "a tradeoff".toList "Databases".toList
     none "API connection error".toList (by decide) (by decide) (Or.inl rfl)⟩

/-- An external call returning a canned response. -/
def canned_llm_invoke : Str → Except Str Str :=
  fun _ => .ok "canned response".toList

/-- A parse step returning a canned well-formed lab document. -/
def canned_parser_parse : Str → Except Str Json :=
  fun _ => .ok (LabGenerationService._create_fallback_lab "X".toList "T".toList).model_dump

/-- C6 counterexample: with the empty-string personalization context the
prompted generator succeeds yet reports `personalization_applied = true`
(the source sets it to `personalization_context is not None`), contradicting
the claim that it is false for an empty-string context. -/
theorem personalization_applied_true_for_empty_context :
    (LabGenerationService.generate_lab canned_llm_invoke canned_parser_parse
        "gpt-4".toList "X".toList "D".toList "T".toList (some [])).success = true ∧
    (LabGenerationService.generate_lab canned_llm_invoke canned_parser_parse
        "gpt-4".toList "X".toList "D".toList "T".toList
        (some [])).metadata.personalization_applied = true := by
  exact ⟨rfl, rfl⟩

/-- C6 (amended): on a successful generation, `personalization_applied`
equals `personalization_context is not None` — true exactly when a context
argument was provided, including the empty string; for the empty string the
personalization block is nevertheless omitted from the prompt (the prompt
built for an empty-string context equals the one built with no context). -/
theorem personalization_applied_iff_context_provided
    (llm_invoke : Str → Except Str Str) (parser_parse : Str → Except Str Json)
    (model_name concept_name concept_definition topic : Str)
    (personalization_context : Option Str)
    (hs : (LabGenerationService.generate_lab llm_invoke parser_parse model_name
        concept_name concept_definition topic personalization_context).success = true) :
    (LabGenerationService.generate_lab llm_invoke parser_parse model_name
        concept_name concept_definition topic
        personalization_context).metadata.personalization_applied =
      personalization_context.isSome ∧
    LabGenerationService._create_lab_prompt concept_name concept_definition topic
        (some []) =
      LabGenerationService._create_lab_prompt concept_name concept_definition topic
        none := by
  refine ⟨?_, rfl⟩
  unfold LabGenerationService.generate_lab LabGenerationService.generate_lab_try at hs ⊢
  cases hllm : llm_invoke (LabGenerationService._create_lab_prompt concept_name
      concept_definition topic personalization_context) with
  | error e =>
    rw [hllm, except_bind_error] at hs
    exact Bool.noConfusion hs
  | ok response =>
    rw [hllm, except_bind_ok] at hs
    cases hparse : parser_parse response with
    | error e =>
      rw [hparse, except_bind_error] at hs
      exact Bool.noConfusion hs
    | ok lab_data =>
      rw [hparse, except_bind_ok] at hs
      cases hlab : parsePersonalizedLab lab_data with
      | none =>
        rw [hlab] at hs
        exact Bool.noConfusion hs
      | some lab =>
        rw [except_bind_ok, hparse, except_bind_ok, hlab]

/-- C6 witness: the amended equivalence at a concrete successful input with
a provided context. -/
theorem personalization_applied_iff_context_provided_witness :
    (LabGenerationService.generate_lab canned_llm_invoke canned_parser_parse
        "gpt-4".toList "X".toList "D".toList "T".toList
        (some "gaming".toList)).success = true ∧
    ((LabGenerationService.generate_lab canned_llm_invoke canned_parser_parse
        "gpt-4".toList "X".toList "D".toList "T".toList
        (some "gaming".toList)).metadata.personalization_applied =
      (some "gaming".toList).isSome ∧
     LabGenerationService._create_lab_prompt "X".toList "D".toList "T".toList
        (some []) =
       LabGenerationService._create_lab_prompt "X".toList "D".toList "T".toList
        none) :=
  ⟨rfl,
   personalization_applied_iff_context_provided canned_llm_invoke canned_parser_parse
     "gpt-4".toList "X".toList "D".toList "T".toList (some "gaming".toList) rfl⟩
